import Mathlib

/-
Verification development for the AutoWriter repository.

This file gives a shallow embedding, in Lean 4, of the parts of the
AutoWriter sources that the specification claims talk about:

* `generateDocumentHtml` and its helpers from `src/electron/main.cjs`
  (the HTML document synthesis used by the `convert-to-pdf` and
  `convert-to-image` IPC handlers);
* the cancellation / close-handler state machine of the
  `convert-docx-to-pdf-word` handler and the module-level export globals
  (`currentExportProcess`, `exportCancelled`) of `src/electron/main.cjs`;
* the page-combination logic of the `convert-docx-to-image-word` handler
  of `src/electron/main.cjs`;
* `calculateMaxPages`, `convertToImageViaPdf`, `convertToImagesViaPdf`
  and `convertToImagesViaPdfWithProgress` from the Android
  `LOKConverter` class (`src/unnamed/part_000`), together with the
  progress listener of `LOKPlugin.convertToImageFiles`
  (`src/android/.../LOKPlugin.java`);
* the bidirectional text shaper `fixArabicText` from the front-end
  source embedded in `src/build_release_apk.bat` (the full export-path
  copy at lines 1860-1938 and the reduced print-path copy at lines
  2989-3010).

Pure functions are translated as Lean functions; the stateful close
handlers are translated as explicit state-passing functions on small
state records.  Machine integers are modelled as `Int`/`Nat` with the
Java 32-bit narrowing made explicit where it occurs.
-/

namespace AutoWriter

/-! ## Basic string infrastructure

`String` in Lean is a structure around `List Char`; the lemmas below
re-associate `++` and let us talk about substring occurrence with an
executable function. -/





/-- Concatenation of a list of strings (JavaScript `array.join('')`). -/
def joinAll : List String → String
  | [] => ""
  | s :: r => s ++ joinAll r

/-! ## The HTML document synthesis of `src/electron/main.cjs`

`generateDocumentHtml(formData)` builds the export HTML by splicing form
fields into one large template literal.  The literal is transcribed
below as the chunks `tpl0` .. `tpl11` (the text between consecutive
`${...}` interpolations, in order) plus the small inner literals of the
conditional interpolations.  JavaScript truthiness of strings and the
`||` defaulting operator are made explicit. -/

/-- Literal template segment `tpl0a` (part of `tpl0`). -/
def tpl0a : String :=
  "<!DOCTYPE html>\n<html dir=\"rtl\" lang=\"ar\">\n<head>\n    <meta charset=\"UTF-8\">\n    <style>\n        @page \x7b size: A4; margin: 0; \x7d\n        * \x7b margin: 0; padding: 0; box-sizing: border-box; \x7d\n        body \x7b \n            font-family: \x27Arial\x27, sans-serif;\n            direction: rtl;\n            background: white;\n            width: 210mm;\n            height: 297mm;\n            position: relative;\n            /* Margins from Word HTML: ~42pt (1.5cm) Top/Sides, 1cm Bottom */\n            padding: 1.5cm 1.5cm 1cm 1.5cm; \n            margin: 0 auto;\n        \x7d\n        \n        /* Page Border from Word HTML: 1.5pt solid windowtext */\n        .page-border \x7b\n            position: absolute;\n            top: 15pt;\n            left: 15pt;\n            right: 15pt;\n            bottom: 15pt;\n            border: 1.5pt solid #000;\n            pointer-events: none;\n            z-index: 10;\n        \x7d\n\n        /* Header Layout */\n        .header \x7b \n            display: flex; \n            justify-content: space-between; \n            align-items: flex-start; \n            margin-bottom: 25px; \n            position: relative; \n            height: 120px;\n        \x7d\n        \n        /* Header Horizontal Line (Double Line) */\n        .header::after \x7b\n            content: \x27\x27;\n            position: absolute;\n            bottom: -5px;\n            left: 0;\n            right: 0;\n            height: 4"

/-- Literal template segment `tpl0b` (part of `tpl0`). -/
def tpl0b : String :=
  "px;\n            border-top: 1pt solid #bf9000;\n            border-bottom: 2.5pt solid #bf9000;\n        \x7d\n\n        /* Right Section (Title) */\n        .header-right \x7b \n            text-align: right; \n            width: 35%;\n            color: #808080; \n            font-weight: bold; \n            padding-top: 5px;\n        \x7d\n        /* Word HTML used 20pt for headers? Maybe slightly smaller for this top section */\n        .header-right h1 \x7b font-family: \x27Arial\x27, sans-serif; font-size: 14pt; margin: 0 0 6px 0; color: #666; font-weight: bold; letter-spacing: 0.5px; \x7d\n        \n        /* Center Section (Logo) */\n        .header-center \x7b \n            text-align: center; \n            width: 30%; \n            display: flex;\n            justify-content: center;\n            align-items: center;\n            padding-top: 5px;\n        \x7d\n        .header-center img \x7b width: 95px; height: 95px; object-fit: contain; \x7d\n        \n        /* Left Section (Date Box) */\n        .header-left \x7b \n            width: 35%; \n            display: flex;\n            justify-content: flex-end;\n            padding-top: 10px;\n        \x7d\n        \n        .date-box \x7b\n            border: 1px solid #7f7f7f;\n            padding: 4px 8px;\n            width: 220px;\n            font-size: 11pt;\n            font-weight: bold;\n            font-family: \x27Arial\x27, sans-serif;\n            background-color: transpar"

/-- Literal template segment `tpl0c` (part of `tpl0`). -/
def tpl0c : String :=
  "ent;\n        \x7d\n        \n        .header-row \x7b \n            display: flex; \n            align-items: center;\n            margin-bottom: 4px;\n            white-space: nowrap;\n        \x7d\n        \n        .header-label \x7b \n            width: 60px; \n            display: inline-block; \n            text-align: right;\n            margin-left: 8px;\n            color: #333;\n        \x7d\n        \n        /* Recipient Section: \"The Brother / ...\" */\n        .recipient-section \x7b \n            display: flex; \n            flex-direction: column; \n            align-items: flex-start; \n            margin: 40px 0 30px 0; \n            /* Word HTML: 20pt */\n            font-size: 20pt; \n            font-weight: bold; \n            color: #000;\n        \x7d\n        .recipient-name \x7b margin-bottom: 10px; \x7d\n\n        /* Greetings: \"Peace be upon you...\" */\n        .greetings \x7b \n            text-align: center; \n            font-size: 20pt; \n            margin: 25px 0; \n            font-weight: normal; /* Word used span styling, seemed normal weight or bold? Usually bold */\n            font-weight: bold; \n        \x7d\n        \n        /* Subject Name: \"Motorcycle Order\" */\n        .subject \x7b \n            text-align: center; \n            font-size: 20pt; \n            font-weight: bold; \n            text-decoration: underline; \n            margin: 20px 0; \n        \x7d\n        \n        /* Body Content */\n "

/-- Literal template segment `tpl0d` (part of `tpl0`). -/
def tpl0d : String :=
  "       .body-content \x7b \n            font-size: 18pt; \n            line-height: 1.5; \n            text-align: justify; \n            margin: 20px 5mm; \n            min-height: 100px; \n            font-weight: normal;\n        \x7d\n        \n        /* Ending: \"Thanks\" */\n        .ending \x7b text-align: center; font-size: 18pt; margin: 40px 0; font-weight: bold; \x7d\n        \n        /* Signature */\n        .signature \x7b text-align: left; font-size: 16pt; font-weight: bold; color: #c00000; margin: 50px 0 0 30mm; \x7d\n        \n        /* Copy To */\n        /* Recalibrate position based on new margins/font sizes */\n        .copy-to \x7b \n            position: absolute; \n            bottom: 25mm; /* ~1 inch from bottom */\n            right: 25mm;  /* ~1 inch from right */\n            font-size: 14pt; \n            font-weight: bold;\n        \x7d\n        .copy-to h4 \x7b margin-bottom: 5px; font-weight: bold; \x7d\n        .copy-to ul \x7b list-style: none; padding: 0; margin: 0; \x7d\n        .copy-to li \x7b margin-bottom: 3px; \x7d\n        \n        .watermark \x7b \n            position: absolute; \n            top: 50%; \n            left: 50%; \n            transform: translate(-50%, -50%); \n            opacity: 0.08; \n            pointer-events: none; \n            z-index: 0; \n        \x7d\n        .watermark img \x7b width: 400px; height: 400px; \x7d\n    </style>\n</head>\n<body>\n    <div class=\"page-border\"></div>\n    "

/-- Literal template segment `tpl0` of generateDocumentHtml (src/electron/main.cjs):
the text before the watermark interpolation, split into four parts to keep
kernel evaluation shallow. -/
def tpl0 : String :=
  tpl0a ++ tpl0b ++ tpl0c ++ tpl0d

/-- Literal template segment `tpl1` of generateDocumentHtml (src/electron/main.cjs). -/
def tpl1 : String :=
  "\n    \n    <div class=\"header\">\n        <!-- Title Section (Right in RTL) -->\n        <div class=\"header-right\">\n            <h1>قـوات التحـالف الـعربي</h1>\n            <h1>قـــوات درع الـــوطن</h1>\n            <h1>القـائـــد العـــــام</h1>\n        </div>\n        \n        <!-- Logo Section (Center) -->\n        <div class=\"header-center\">"

/-- Literal template segment `tpl2` of generateDocumentHtml (src/electron/main.cjs). -/
def tpl2 : String :=
  "</div>\n        \n        <!-- Date Box Section (Left in RTL) -->\n        <div class=\"header-left\">\n            <div class=\"date-box\">\n                "

/-- Literal template segment `tpl3` of generateDocumentHtml (src/electron/main.cjs). -/
def tpl3 : String :=
  "\n                <div class=\"header-row\"><span class=\"header-label\">المرجع:</span> <span>_______</span></div>\n                <div class=\"header-row\"><span class=\"header-label\">المرفقات:</span> <span>_______</span></div>\n            </div>\n        </div>\n    </div>\n\n    <!-- Padding for recipient to separate from header line -->\n    <div style=\"height: 10px;\"></div>\n\n    <div class=\"recipient-section\">\n        <div class=\"recipient-name\">"

/-- Literal template segment `tpl4` of generateDocumentHtml (src/electron/main.cjs). -/
def tpl4 : String :=
  "</div>\n        <div class=\"recipient-name\">"

/-- Literal template segment `tpl5` of generateDocumentHtml (src/electron/main.cjs). -/
def tpl5 : String :=
  "</div>\n    </div>\n\n    <div class=\"greetings\">"

/-- Literal template segment `tpl6` of generateDocumentHtml (src/electron/main.cjs). -/
def tpl6 : String :=
  "</div>\n    \n    <div class=\"subject\">"

/-- Literal template segment `tpl7` of generateDocumentHtml (src/electron/main.cjs). -/
def tpl7 : String :=
  "</div>\n    \n    <div class=\"body-content\">"

/-- Literal template segment `tpl8` of generateDocumentHtml (src/electron/main.cjs). -/
def tpl8 : String :=
  "</div>\n    \n    <div class=\"ending\">"

/-- Literal template segment `tpl9` of generateDocumentHtml (src/electron/main.cjs). -/
def tpl9 : String :=
  "</div>\n    \n    <div class=\"signature\">"

/-- Literal template segment `tpl10` of generateDocumentHtml (src/electron/main.cjs). -/
def tpl10 : String :=
  "</div>\n    \n    "

/-- Literal template segment `tpl11` of generateDocumentHtml (src/electron/main.cjs). -/
def tpl11 : String :=
  "\n</body>\n</html>"

/-- Literal template segment `wm0` of generateDocumentHtml (src/electron/main.cjs). -/
def wm0 : String :=
  "<div class=\"watermark\"><img src=\""

/-- Literal template segment `wm1` of generateDocumentHtml (src/electron/main.cjs). -/
def wm1 : String :=
  "\" alt=\"\"></div>"

/-- Literal template segment `lg0` of generateDocumentHtml (src/electron/main.cjs). -/
def lg0 : String :=
  "<img src=\""

/-- Literal template segment `lg1` of generateDocumentHtml (src/electron/main.cjs). -/
def lg1 : String :=
  "\" alt=\"Logo\">"

/-- Literal template segment `dr0` of generateDocumentHtml (src/electron/main.cjs). -/
def dr0 : String :=
  "\n                <div class=\"header-row\"><span class=\"header-label\">التاريـخ:</span> <span>"

/-- Literal template segment `dr1` of generateDocumentHtml (src/electron/main.cjs). -/
def dr1 : String :=
  "</span></div>\n                <div class=\"header-row\"><span class=\"header-label\">اليـــوم:</span> <span>"

/-- Literal template segment `dr2` of generateDocumentHtml (src/electron/main.cjs). -/
def dr2 : String :=
  "</span></div>\n                "

/-- Literal template segment `cc0` of generateDocumentHtml (src/electron/main.cjs). -/
def cc0 : String :=
  "<div class=\"copy-to\"><h4>نسخة إلى:</h4><ul>"

/-- Literal template segment `cc1` of generateDocumentHtml (src/electron/main.cjs). -/
def cc1 : String :=
  "</ul></div>"

/-- JavaScript truthiness of an optional string: `undefined` and the
empty string are falsy. -/
def jsTruthy : Option String → Bool
  | none => false
  | some s => s != ""

/-- JavaScript `value || default` for an optional string field. -/
def jsOr (o : Option String) (d : String) : String :=
  match o with
  | none => d
  | some s => if s = "" then d else s

/-- The `formData` object consumed by `generateDocumentHtml`. -/
structure FormData where
  logoBase64 : Option String
  copy_to : Option String
  showDate : Bool
  «to» : Option String
  to_the : Option String
  greetings : Option String
  subject_name : Option String
  subject : Option String
  ending : Option String
  sign : Option String
deriving DecidableEq

/-- A JavaScript `Date`, reduced to the four accessors the code calls. -/
structure JsDate where
  getDate : Nat
  getMonth : Nat
  getFullYear : Nat
  getDay : Fin 7
deriving DecidableEq

/-- Arabic day names (`arabicDays` in `generateDocumentHtml`). -/
def arabicDays : List String :=
  ["الأحد", "الاثنين", "الثلاثاء", "الأربعاء", "الخميس", "الجمعة", "السبت"]

/-- Day-name lookup `arabicDays[today.getDay()]`. -/
def dayName (today : JsDate) : String := arabicDays.getD today.getDay.val ""

/-- Date string `${getDate()}/${getMonth()+1}/${getFullYear()}م`. -/
def dateStr (today : JsDate) : String :=
  toString today.getDate ++ "/" ++ toString (today.getMonth + 1) ++ "/" ++
    toString today.getFullYear ++ "م"

/-- Logo data URL: `formData.logoBase64 ? \x60data:image/png;base64,...\x60 : ''`. -/
def logoSrc (formData : FormData) : String :=
  if jsTruthy formData.logoBase64 then
    "data:image/png;base64," ++ formData.logoBase64.getD ""
  else ""

/-- JavaScript `String.prototype.split('\n')` on the character list:
splitting on newlines, where the empty string yields one empty piece. -/
def splitLinesJs : List Char → List (List Char)
  | [] => [[]]
  | c :: t =>
    if c == '\n' then [] :: splitLinesJs t
    else
      match splitLinesJs t with
      | [] => [[c]]
      | h :: r => (c :: h) :: r

/-- JavaScript `String.prototype.trim()` on the character list. -/
def trimJs (l : List Char) : List Char :=
  ((l.dropWhile Char.isWhitespace).reverse.dropWhile Char.isWhitespace).reverse

/-- Copy-to list items:
`formData.copy_to ? formData.copy_to.split('\n').filter(line => line.trim()).map(line => \x60<li>${line.trim()}</li>\x60).join('') : ''`. -/
def copyToItems (formData : FormData) : String :=
  if jsTruthy formData.copy_to then
    joinAll (((splitLinesJs (formData.copy_to.getD "").data).filter
        (fun line => trimJs line != [])).map
      (fun line => "<li>" ++ String.mk (trimJs line) ++ "</li>"))
  else ""

/-- The non-blank trimmed lines of a copy-to text: the distribution-list
entries the code generates, one per non-blank line. -/
def ccEntries (s : String) : List String :=
  ((splitLinesJs s.data).filter (fun line => trimJs line != [])).map
    (fun line => String.mk (trimJs line))

/-- The full `generateDocumentHtml` template of `src/electron/main.cjs`:
the chunks `tpl0` .. `tpl11` interleaved with the eleven interpolations
of the template literal, in source order. -/
def generateDocumentHtml (today : JsDate) (formData : FormData) : String :=
  tpl0 ++
  (if logoSrc formData != "" then wm0 ++ logoSrc formData ++ wm1 else "") ++
  tpl1 ++
  (if logoSrc formData != "" then lg0 ++ logoSrc formData ++ lg1 else "") ++
  tpl2 ++
  (if formData.showDate then dr0 ++ dateStr today ++ dr1 ++ dayName today ++ dr2 else "") ++
  tpl3 ++ jsOr formData.to "" ++
  tpl4 ++ jsOr formData.to_the "المحترم" ++
  tpl5 ++ jsOr formData.greetings "السلام عليكم ورحمة الله وبركاته.." ++
  tpl6 ++ jsOr formData.subject_name "" ++
  tpl7 ++ jsOr formData.subject "" ++
  tpl8 ++ jsOr formData.ending "وشكراً.." ++
  tpl9 ++ jsOr formData.sign "" ++
  tpl10 ++
  (if copyToItems formData != "" then cc0 ++ copyToItems formData ++ cc1 else "") ++
  tpl11

/-! ## Decompositions of the template used by the claims -/

/-- The date/day rows emitted when `formData.showDate` is truthy
(the true branch of the third interpolation). -/
def dateRowsBlock (today : JsDate) : String :=
  dr0 ++ dateStr today ++ dr1 ++ dayName today ++ dr2

/-- Everything of `generateDocumentHtml` before the `showDate` conditional
block.  It does not read `showDate` or the date. -/
def c5pre (formData : FormData) : String :=
  tpl0 ++
  (if logoSrc formData != "" then wm0 ++ logoSrc formData ++ wm1 else "") ++
  tpl1 ++
  (if logoSrc formData != "" then lg0 ++ logoSrc formData ++ lg1 else "") ++
  tpl2

/-- Everything of `generateDocumentHtml` after the `showDate` conditional
block.  It does not read `showDate` or the date. -/
def c5suf (formData : FormData) : String :=
  tpl3 ++ jsOr formData.to "" ++
  tpl4 ++ jsOr formData.to_the "المحترم" ++
  tpl5 ++ jsOr formData.greetings "السلام عليكم ورحمة الله وبركاته.." ++
  tpl6 ++ jsOr formData.subject_name "" ++
  tpl7 ++ jsOr formData.subject "" ++
  tpl8 ++ jsOr formData.ending "وشكراً.." ++
  tpl9 ++ jsOr formData.sign "" ++
  tpl10 ++
  (if copyToItems formData != "" then cc0 ++ copyToItems formData ++ cc1 else "") ++
  tpl11

/-- Everything of `generateDocumentHtml` before the recipient (`to`)
interpolation. -/
def c1pre (today : JsDate) (formData : FormData) : String :=
  c5pre formData ++
  (if formData.showDate then dateRowsBlock today else "") ++
  tpl3

/-- Everything of `generateDocumentHtml` after the recipient (`to`)
interpolation. -/
def c1suf (formData : FormData) : String :=
  tpl4 ++ jsOr formData.to_the "المحترم" ++
  tpl5 ++ jsOr formData.greetings "السلام عليكم ورحمة الله وبركاته.." ++
  tpl6 ++ jsOr formData.subject_name "" ++
  tpl7 ++ jsOr formData.subject "" ++
  tpl8 ++ jsOr formData.ending "وشكراً.." ++
  tpl9 ++ jsOr formData.sign "" ++
  tpl10 ++
  (if copyToItems formData != "" then cc0 ++ copyToItems formData ++ cc1 else "") ++
  tpl11

/-- Everything of `generateDocumentHtml` before the copy-to section. -/
def c4pre (today : JsDate) (formData : FormData) : String :=
  c5pre formData ++
  (if formData.showDate then dateRowsBlock today else "") ++
  tpl3 ++ jsOr formData.to "" ++
  tpl4 ++ jsOr formData.to_the "المحترم" ++
  tpl5 ++ jsOr formData.greetings "السلام عليكم ورحمة الله وبركاته.." ++
  tpl6 ++ jsOr formData.subject_name "" ++
  tpl7 ++ jsOr formData.subject "" ++
  tpl8 ++ jsOr formData.ending "وشكراً.." ++
  tpl9 ++ jsOr formData.sign "" ++
  tpl10

/-- The distribution-list (`copy-to`) section of the document: present
exactly when `copyToItems` is non-empty. -/
def ccSection (formData : FormData) : String :=
  if copyToItems formData != "" then cc0 ++ copyToItems formData ++ cc1 else ""

/-- Concrete fixture: a form with every optional field absent and the
date hidden. -/
def fd0 : FormData := ⟨none, none, false, none, none, none, none, none, none, none⟩

/-- Concrete fixture: like `fd0` but with the date shown. -/
def fd0d : FormData := ⟨none, none, true, none, none, none, none, none, none, none⟩

/-- Concrete fixture: a recipient value carrying markup characters. -/
def fdScript : FormData :=
  ⟨none, none, false, some "<script>alert(1)</script>", none, none, none, none, none, none⟩

/-- Concrete fixture date: Wednesday 2025-01-01 (month index 0). -/
def d0 : JsDate := ⟨1, 0, 2025, 3⟩

/-- The part of `dr0` before the date-row label. -/
def dr0x : String :=
  "\n                <div class=\"header-row\"><span class=\"header-label\">"

/-- The part of `dr0` after the date-row label. -/
def dr0y : String :=
  "</span> <span>"

/-- The part of `dr1` before the day-row label. -/
def dr1x : String :=
  "</span></div>\n                <div class=\"header-row\"><span class=\"header-label\">"

/-- The part of `dr1` after the day-row label. -/
def dr1y : String :=
  "</span> <span>"

/-- Concrete fixture: a form whose copy-to text has two non-blank lines
(one with trailing whitespace) and one blank line. -/
def fdCc : FormData :=
  ⟨none, some "أحمد\n  \nعلي ", false, none, none, none, none, none, none, none⟩

/-! ## Export globals and the Word-conversion close handler
(`src/electron/main.cjs`)

The two module-level variables `currentExportProcess` and
`exportCancelled` are shared by every export IPC handler; a spawned
process is identified by its pid. -/

/-- The module-level mutable state of `src/electron/main.cjs` that the
export handlers read and write. -/
structure ExportGlobals where
  currentExportProcess : Option Nat
  exportCancelled : Bool
deriving DecidableEq

/-- The `cancel-export` IPC handler: sets `exportCancelled`, and kills
and clears the tracked process if there is one.  Returns the new globals
and the pid that was killed, if any. -/
def cancelExportHandler (g : ExportGlobals) : ExportGlobals × Option Nat :=
  let g1 : ExportGlobals := { g with exportCancelled := true }
  match g1.currentExportProcess with
  | some pid => ({ g1 with currentExportProcess := none }, some pid)
  | none => (g1, none)

/-- The prologue of a Word-based export handler: it resets
`exportCancelled` to `false` and records the spawned converter process
in `currentExportProcess`, regardless of the previous contents of either
variable. -/
def startWordExport (pid : Nat) (_g : ExportGlobals) : ExportGlobals :=
  { currentExportProcess := some pid, exportCancelled := false }

/-- The temporary files created by `convert-docx-to-pdf-word`. -/
structure TempFiles where
  docxExists : Bool
  pdfExists : Bool
deriving DecidableEq

/-- The settlement of the conversion promise. -/
inductive PromiseOutcome where
  | resolvedBuffer : List Nat → PromiseOutcome
  | rejected : String → PromiseOutcome
deriving DecidableEq

/-- The `ps.on('close')` handler of `convert-docx-to-pdf-word`: clears
the tracked process, always unlinks the temp docx, then on cancellation
unlinks the temp pdf and rejects with `Export cancelled`; otherwise it
resolves with the pdf bytes on exit code 0 (with the pdf present) and
rejects otherwise, deleting the temp pdf in every branch. -/
def wordPdfCloseHandler (g : ExportGlobals) (files : TempFiles) (code : Int)
    (pdfReady : Bool) (pdfBytes : List Nat) :
    ExportGlobals × TempFiles × PromiseOutcome :=
  let g1 : ExportGlobals := { g with currentExportProcess := none }
  let f1 : TempFiles := { files with docxExists := false }
  if g1.exportCancelled then
    (g1, { f1 with pdfExists := false }, .rejected "Export cancelled")
  else if code == 0 && pdfReady then
    (g1, { f1 with pdfExists := false }, .resolvedBuffer pdfBytes)
  else
    (g1, { f1 with pdfExists := false }, .rejected "Word conversion failed")

/-- Initial export globals: no tracked process, not cancelled. -/
def exportsInit : ExportGlobals := ⟨none, false⟩

/-! ## The page-combination logic of `convert-docx-to-image-word`
(`src/electron/main.cjs`)

A rendered page image is abstracted to its pixel dimensions plus an
opaque buffer identifier; the canvas drawing of the combine branch is
recorded as a list of (image, y-offset) placements. -/

/-- One rendered page image. -/
structure PageImg where
  width : Nat
  height : Nat
  buf : Nat
deriving DecidableEq

/-- The combined canvas: its dimensions and the placements drawn onto it
(each page image at x = 0 and the recorded y offset). -/
structure CanvasModel where
  width : Nat
  height : Nat
  draws : List (PageImg × Nat)
deriving DecidableEq

/-- Result of the `convert-docx-to-image-word` handler. -/
inductive ImageExportResult where
  | single : PageImg → ImageExportResult
  | combined : CanvasModel → ImageExportResult
  | multiple : List (PageImg × Nat) → ImageExportResult
deriving DecidableEq

/-- The `maxWidth` accumulator loop of the combine branch. -/
def maxWidthOf (images : List PageImg) : Nat :=
  images.foldl (fun w img => max w img.width) 0

/-- The `totalHeight` accumulator loop of the combine branch. -/
def totalHeightOf (images : List PageImg) : Nat :=
  images.foldl (fun h img => h + img.height) 0

/-- The drawing loop of the combine branch: draw each image at the
running `yOffset`, then advance it by the image height. -/
def drawLoop (yOffset : Nat) : List PageImg → List (PageImg × Nat)
  | [] => []
  | img :: rest => (img, yOffset) :: drawLoop (yOffset + img.height) rest

/-- The page-numbering loop of the separate-images branch
(`pageNum: i + 1`). -/
def pageNumber (i : Nat) : List PageImg → List (PageImg × Nat)
  | [] => []
  | img :: rest => (img, i + 1) :: pageNumber (i + 1) rest

/-- The tail of the `convert-docx-to-image-word` handler, starting from
the sorted list of per-page images produced by pdf-poppler: fail when no
image was generated; with `combinePages` return the single page directly
(one page) or the stacked canvas (more pages); without it return the
per-page buffers numbered from 1. -/
def convertDocxToImageWord (files : List PageImg) (combinePages : Bool) :
    Except String ImageExportResult :=
  match files with
  | [] => .error "No image files generated"
  | f :: rest =>
    if combinePages then
      match rest with
      | [] => .ok (.single f)
      | _ :: _ =>
        .ok (.combined ⟨maxWidthOf (f :: rest), totalHeightOf (f :: rest),
          drawLoop 0 (f :: rest)⟩)
    else
      .ok (.multiple (pageNumber 0 (f :: rest)))

/-- Width of the produced buffer (combine branch). -/
def resultWidth : ImageExportResult → Nat
  | .single p => p.width
  | .combined c => c.width
  | .multiple _ => 0

/-- Height of the produced buffer (combine branch). -/
def resultHeight : ImageExportResult → Nat
  | .single p => p.height
  | .combined c => c.height
  | .multiple _ => 0

/-- Page placements of the produced buffer (combine branch); the single
page is the whole buffer, i.e. it sits at offset 0. -/
def resultDraws : ImageExportResult → List (PageImg × Nat)
  | .single p => [(p, 0)]
  | .combined c => c.draws
  | .multiple _ => []

/-- Specification-side stacking offsets: the offset of each page is the
sum of the heights of the pages before it. -/
def stackOffsets (yOffset : Nat) : List Nat → List Nat
  | [] => []
  | h :: t => yOffset :: stackOffsets (yOffset + h) t

/-! ## The Android LOKConverter (`src/unnamed/part_000`)

`calculateMaxPages` computes a memory-dependent page limit;
`convertToImageViaPdf` / `convertToImagesViaPdf` enforce it before
rendering, while `convertToImagesViaPdfWithProgress` renders page by
page without a limit.  Each function first converts the input document
to a temporary PDF unless the input path already ends in `.pdf`
(case-insensitively), in which case the input file is used directly and
`needsCleanup` stays false.  The environment of one call is summarised
by `LokEnv`; file-system effects are recorded as booleans. -/

/-- Java `(int)` narrowing of a `long`: keep the low 32 bits, signed. -/
def javaIntCast (x : Int) : Int := (x + 2 ^ 31) % 2 ^ 32 - 2 ^ 31

/-- The `calculateMaxPages` routine: `availableMem` is
`maxMemory() - (totalMemory() - freeMemory())`; the safe page budget is
half of it at 4 MiB per page, clamped to [10, 150] after Java `(int)`
narrowing. -/
def calculateMaxPages (availableMem : Int) : Int :=
  let safeMemory : Int := (availableMem.tdiv 2).tdiv (4 * 1024 * 1024)
  max 10 (min 150 (javaIntCast safeMemory))

/-- Environment of one LOKConverter call: the memory state sampled by
`calculateMaxPages`, whether `convertToPdf` succeeds, the page count the
`PdfRenderer` reports, and whether the final output write succeeds. -/
structure LokEnv where
  availableMem : Int
  convertOk : Bool
  pageCount : Nat
  saveOk : Bool
deriving DecidableEq

/-- How a LOKConverter call ends: normal success, a `false`/`null`
return, or the too-many-pages exception. -/
inductive LokOutcome where
  | success
  | failed
  | tooManyPages
deriving DecidableEq

/-- Observable result of one LOKConverter call: the outcome, whether the
no-conversion (input already PDF) branch was taken, whether a temporary
PDF was actually produced by `convertToPdf`, and whether
`tempPdf.delete()` ran. -/
structure LokResult where
  outcome : LokOutcome
  usedInputAsPdf : Bool
  tempPdfCreated : Bool
  tempPdfDeleted : Bool
deriving DecidableEq

/-- The `inputPath.toLowerCase().endsWith(".pdf")` test. -/
def endsWithPdfLower (s : String) : Bool :=
  List.isSuffixOf ".pdf".data (s.data.map Char.toLower)

/-- Shared tail of `convertToImageViaPdf` / `convertToImagesViaPdf`
after the temporary PDF is available: enforce the dynamic page limit
(throwing deletes the temp PDF in the catch block iff `needsCleanup`),
return `false`/`null` on a zero-page PDF without deleting anything, and
otherwise render, delete the temp PDF iff `needsCleanup`, and report
success iff the output write succeeded. -/
def lokRenderGated (env : LokEnv) (needsCleanup usedInputAsPdf : Bool) : LokResult :=
  let maxPages := calculateMaxPages env.availableMem
  if (env.pageCount : Int) > maxPages then
    ⟨.tooManyPages, usedInputAsPdf, needsCleanup, needsCleanup⟩
  else if env.pageCount == 0 then
    ⟨.failed, usedInputAsPdf, needsCleanup, false⟩
  else
    ⟨if env.saveOk then .success else .failed, usedInputAsPdf, needsCleanup, needsCleanup⟩

/-- `convertToImageViaPdf(inputPath, outputPath, combinePages)`: use the
input directly when it already is a PDF, otherwise convert it first
(returning `false` without any cleanup when that fails), then render
behind the page gate. -/
def convertToImageViaPdf (inputPath : String) (env : LokEnv) : LokResult :=
  if endsWithPdfLower inputPath then
    lokRenderGated env false true
  else if !env.convertOk then
    ⟨.failed, false, false, false⟩
  else
    lokRenderGated env true false

/-- `convertToImagesViaPdf(inputPath, outputDir, baseName)`: identical
control flow to `convertToImageViaPdf` (per-page output files instead of
one combined file; `saveOk` stands for "some page file was written"). -/
def convertToImagesViaPdf (inputPath : String) (env : LokEnv) : LokResult :=
  if endsWithPdfLower inputPath then
    lokRenderGated env false true
  else if !env.convertOk then
    ⟨.failed, false, false, false⟩
  else
    lokRenderGated env true false

/-- Tail of `convertToImagesViaPdfWithProgress` after the temporary PDF
is available: there is deliberately no page limit; each loop iteration
`i` reports progress `(i + 1, pageCount)` after saving page `i`. -/
def lokRenderWithProgress (env : LokEnv) (needsCleanup usedInputAsPdf : Bool) :
    LokResult × List (Nat × Nat) :=
  if env.pageCount == 0 then
    (⟨.failed, usedInputAsPdf, needsCleanup, false⟩, [])
  else
    (⟨if env.saveOk then .success else .failed, usedInputAsPdf, needsCleanup, needsCleanup⟩,
     (List.range env.pageCount).map (fun i => (i + 1, env.pageCount)))

/-- `convertToImagesViaPdfWithProgress(inputPath, outputDir, baseName,
callback)`: PDF detection and conversion as in the other two
conversions, then the ungated page loop; the second component is the
sequence of `callback.onProgress(current, total)` invocations. -/
def convertToImagesViaPdfWithProgress (inputPath : String) (env : LokEnv) :
    LokResult × List (Nat × Nat) :=
  if endsWithPdfLower inputPath then
    lokRenderWithProgress env false true
  else if !env.convertOk then
    (⟨.failed, false, false, false⟩, [])
  else
    lokRenderWithProgress env true false

/-- The progress listener of `LOKPlugin.convertToImageFiles`: each
`onProgress(current, total)` is forwarded to JavaScript as the event
`(current, total, percent)` with
`percent = (int)((current * 100.0) / total)`, which for the page counts
involved equals integer division. -/
def lokPluginProgressEvent (current total : Nat) : Nat × Nat × Nat :=
  (current, total, current * 100 / total)

/-! ## The bidirectional text shaper `fixArabicText`
(`src/build_release_apk.bat`)

The front-end source is embedded in `src/build_release_apk.bat` after
the batch commands; it defines the shaper `fixArabicText` twice: the
full export-path copy (lines 1860-1938) and a reduced print-path copy
(lines 2989-3010).  Both first run one shaping pass over the whole text
when the `needsFix` regexes fire, then split on newlines; the export
copy re-runs the shaping pass per line under the same test; both copies
then run the unconditional per-line escape chain (the five XML entities
plus `$` doubling) and rejoin the lines with `</w:t><w:br/><w:t>`.

The regex pipeline of one shaping pass (protect the `ltrRegex` run
matches behind `__PH_i__` placeholders, wrap slashes/backslashes and
period runs in RLM marks, then restore the placeholders as
LRE/PDF-wrapped runs) is rendered below as one direct left-to-right
sweep over the character list, which produces the same text for inputs
that do not themselves contain a literal placeholder token. -/

/-- Latin-letter test (ASCII ranges a-z, A-Z). -/
def isLatinLetterC (c : Char) : Bool :=
  decide (97 ≤ c.toNat ∧ c.toNat ≤ 122) || decide (65 ≤ c.toNat ∧ c.toNat ≤ 90)

/-- ASCII digit test. -/
def isAsciiDigitC (c : Char) : Bool :=
  decide (48 ≤ c.toNat ∧ c.toNat ≤ 57)

/-- One-character part of the `needsFix` test `/[a-zA-Z0-9\/]|\\/`:
a Latin letter, an ASCII digit, a slash or a backslash. -/
def needsFixChar (c : Char) : Bool :=
  isLatinLetterC c || isAsciiDigitC c || c == '/' || c == '\\'

/-- The `/\.\x7b2,\x7d/` part of the `needsFix` test: two or more
consecutive periods. -/
def hasDoubleDot : List Char → Bool
  | [] => false
  | [_] => false
  | a :: b :: t => (a == '.' && b == '.') || hasDoubleDot (b :: t)

/-- The `needsFix` (and identical `needsFixLine`) test of
`fixArabicText`. -/
def needsFix (l : List Char) : Bool :=
  l.any needsFixChar || hasDoubleDot l

/-- The left-to-right embedding control character U+202A (`LRE`). -/
def lreMark : Char := Char.ofNat 0x202A

/-- The right-to-left embedding control character U+202B (`RLE`). -/
def rleMark : Char := Char.ofNat 0x202B

/-- The pop-directional-formatting control character U+202C (`PDF`). -/
def pdfMark : Char := Char.ofNat 0x202C

/-- The right-to-left mark U+200F (`RLM`). -/
def rlmMark : Char := Char.ofNat 0x200F

/-- The punctuation of the `[ltrChars]` character class of the LTR-run
regex (the class also lists the backslash twice; the braces and the
apostrophe are written numerically here). -/
def ltrPunct : List Char :=
  ['<', '>', '&', '*', '%', '$', '#', '@', '!', '+', '=', '\\', '?', '_', '-',
    '^', '~', '|', '[', ']', Char.ofNat 0x7B, Char.ofNat 0x7D, '(', ')', ';',
    ':', '"', Char.ofNat 39]

/-- Membership in the `[ltrChars]` class: Latin letters, ASCII digits
and the punctuation set. -/
def isLtrClassChar (c : Char) : Bool :=
  isLatinLetterC c || isAsciiDigitC c || ltrPunct.contains c

/-- Split off the leading run of periods (the `\.+` part of the dot
regex). -/
def takeDots : List Char → List Char × List Char
  | [] => ([], [])
  | c :: t =>
    if c == '.' then
      let r := takeDots t
      (c :: r.1, r.2)
    else ([], c :: t)

/-- Is the next character in the `[ltrChars]` class? -/
def headIsLtrClass : List Char → Bool
  | [] => false
  | d :: _ => isLtrClassChar d

/-- The body of one shaping pass as one left-to-right sweep: maximal
runs matching `([ltrChars]+(?:[.][ltrChars]+)*)` (protected behind
placeholders in the source and restored unchanged) are wrapped in an
LRE/PDF pair; outside those runs each slash or backslash is wrapped in
RLM marks (`/[\/\\]/g`), and each period run is wrapped in RLM marks
with one optional following space kept after them (`/(\.+)( ?)/g`).
`inRun` records whether an LTR run is currently open. -/
def shapeSegs (inRun : Bool) (l : List Char) : List Char :=
  match l with
  | [] => if inRun then [pdfMark] else []
  | c :: t =>
    if isLtrClassChar c then
      (if inRun then [c] else [lreMark, c]) ++ shapeSegs true t
    else if inRun && c == '.' && headIsLtrClass t then
      c :: shapeSegs true t
    else
      let closing : List Char := if inRun then [pdfMark] else []
      if c == '/' || c == '\\' then
        closing ++ [rlmMark, c, rlmMark] ++ shapeSegs false t
      else if c == '.' then
        match hrest : (takeDots t).2 with
        | ' ' :: r2 =>
          closing ++ [rlmMark] ++ (c :: (takeDots t).1) ++ [rlmMark, ' '] ++ shapeSegs false r2
        | rest =>
          closing ++ [rlmMark] ++ (c :: (takeDots t).1) ++ [rlmMark] ++ shapeSegs false rest
      else
        closing ++ [c] ++ shapeSegs false t
termination_by l.length
decreasing_by
  all_goals simp_wf
  all_goals
    (have h : ∀ l2 : List Char, (takeDots l2).2.length ≤ l2.length := by
      intro l2
      induction l2 with
      | nil => simp [takeDots]
      | cons a r ih =>
        by_cases ha : a == '.'
        · simp only [takeDots, ha, if_true]
          exact Nat.le_succ_of_le ih
        · simp [takeDots, ha]
     have h2 := h t
     rw [hrest] at h2
     first
       | omega
       | (simp only [List.length_cons] at h2; omega))

/-- The trailing-period rule of the pass
(`slice(0, -1) + '.' + RLM` when the processed text ends with a
period, i.e. an RLM is appended after the final period). -/
def fixTrailingPeriod (l : List Char) : List Char :=
  match l.getLast? with
  | some c => if c == '.' then l ++ [rlmMark] else l
  | none => l

/-- One shaping pass of `fixArabicText` (the body of its
`if (needsFix)` block): the sweep, the trailing-period rule, then the
RLE/PDF wrap of the whole text. -/
def shapePass (l : List Char) : List Char :=
  rleMark :: fixTrailingPeriod (shapeSegs false l) ++ [pdfMark]

/-- The per-line escape chain of `fixArabicText`: `&`→`&amp;`,
`<`→`&lt;`, `>`→`&gt;`, `"`→`&quot;`, `'`→`&apos;` and `$`→`$$`.  The
chained `replace` calls never rescan one another's output, so they equal
this single per-character map. -/
def escapeXmlDollarChar (c : Char) : List Char :=
  if c == '&' then "&amp;".data
  else if c == '<' then "&lt;".data
  else if c == '>' then "&gt;".data
  else if c == '"' then "&quot;".data
  else if c == Char.ofNat 39 then "&apos;".data
  else if c == '$' then "$$".data
  else [c]

/-- The per-line escape chain on a whole line. -/
def escapeXmlDollar (l : List Char) : List Char :=
  (l.map escapeXmlDollarChar).flatten

/-- The line separator of the final join:
`processedLines.join('</w:t><w:br/><w:t>')`. -/
def wtBrMarker : List Char := "</w:t><w:br/><w:t>".data

/-- JavaScript `array.join` with the `wtBrMarker` separator. -/
def joinWithBr : List (List Char) → List Char
  | [] => []
  | [x] => x
  | x :: y :: r => x ++ wtBrMarker ++ joinWithBr (y :: r)

/-- The bidirectional text shaper `fixArabicText` of the export path
(`src/build_release_apk.bat` lines 1860-1938): falsy input yields `''`;
otherwise one whole-text shaping pass when `needsFix` fires, the split
on newlines, a second per-line shaping pass under the same test
(`needsFixLine`), the unconditional per-line escape chain, and the
`</w:t><w:br/><w:t>` join. -/
def fixArabicText (text : String) : String :=
  if text = "" then ""
  else
    let processedText := if needsFix text.data then shapePass text.data else text.data
    String.mk (joinWithBr ((splitLinesJs processedText).map (fun line =>
      escapeXmlDollar (if needsFix line then shapePass line else line))))

/-- The reduced copy of `fixArabicText` at the print path
(`src/build_release_apk.bat` lines 2989-3010): the same whole-text pass,
split and join, but the per-line map only escapes. -/
def fixArabicTextPrint (text : String) : String :=
  if text = "" then ""
  else
    let processedText := if needsFix text.data then shapePass text.data else text.data
    String.mk (joinWithBr ((splitLinesJs processedText).map
      (fun line => escapeXmlDollar line)))

/-- A right-to-left letter (Hebrew, Arabic, Syriac and the Arabic
presentation-form blocks). -/
def isRtlChar (c : Char) : Bool :=
  decide (0x0590 ≤ c.toNat ∧ c.toNat ≤ 0x08FF) ||
    decide (0xFB50 ≤ c.toNat ∧ c.toNat ≤ 0xFDFF) ||
    decide (0xFE70 ≤ c.toNat ∧ c.toNat ≤ 0xFEFF)

/-- Decidable prefix test on character lists. -/
def isPrefixCL : List Char → List Char → Bool
  | [], _ => true
  | _ :: _, [] => false
  | p :: ps, c :: cs => p == c && isPrefixCL ps cs

/-- Decidable substring occurrence test on character lists: does `pat`
occur contiguously inside the second argument? -/
def containsCL (pat : List Char) : List Char → Bool
  | [] => isPrefixCL pat []
  | c :: t => isPrefixCL pat (c :: t) || containsCL pat t

/-- Decidable substring occurrence test on strings. -/
def strContains (s pat : String) : Bool := containsCL pat.data s.data

/-! ## Theorems

Supporting lemmas first, then one theorem per specification claim
(with witnesses and counterexamples where required). -/

/-- Associativity of string append, proved by falling back to lists. -/
theorem strAppend_assoc (a b c : String) : a ++ b ++ c = a ++ (b ++ c) := by
  cases a with
  | mk la =>
    cases b with
    | mk lb =>
      cases c with
      | mk lc =>
        show String.mk (la ++ lb ++ lc) = String.mk (la ++ (lb ++ lc))
        rw [List.append_assoc]

/-- Data of an appended string is the appended data. -/
theorem strData_append (a b : String) : (a ++ b).data = a.data ++ b.data := by
  cases a with
  | mk la =>
    cases b with
    | mk lb => rfl

/-- A list is a prefix of itself followed by anything. -/
theorem isPrefixCL_append_self (p b : List Char) : isPrefixCL p (p ++ b) = true := by
  induction p with
  | nil => rfl
  | cons c t ih => simp [isPrefixCL, ih]

/-- Occurrence is preserved by prepending characters. -/
theorem containsCL_append_left (pat a l : List Char) (h : containsCL pat l = true) :
    containsCL pat (a ++ l) = true := by
  induction a with
  | nil => simpa using h
  | cons c t ih => simp [containsCL, ih]

/-- The empty pattern occurs everywhere. -/
theorem containsCL_nil (l : List Char) : containsCL [] l = true := by
  induction l with
  | nil => rfl
  | cons c t ih => simp [containsCL, isPrefixCL, ih]

/-- A pattern occurs in any string of the form `a ++ pat ++ b`. -/
theorem containsCL_of_middle (pat a b : List Char) :
    containsCL pat (a ++ (pat ++ b)) = true := by
  apply containsCL_append_left
  cases pat with
  | nil => exact containsCL_nil b
  | cons c t =>
    have h := isPrefixCL_append_self (c :: t) b
    simp only [List.cons_append] at h
    simp [containsCL, h]

/-- Substring occurrence for a string assembled as `pre ++ v ++ suf`. -/
theorem strContains_of_decomp (s pre v suf : String) (h : s = pre ++ v ++ suf) :
    strContains s v = true := by
  subst h
  rw [strAppend_assoc]
  unfold strContains
  rw [strData_append, strData_append]
  exact containsCL_of_middle v.data pre.data suf.data

/-- Prepending the empty string is the identity. -/
theorem strEmpty_append (s : String) : "" ++ s = s := by
  cases s with
  | mk l =>
    show String.mk ([] ++ l) = String.mk l
    rw [List.nil_append]

/-- Appending the empty string is the identity. -/
theorem strAppend_empty (s : String) : s ++ "" = s := by
  cases s with
  | mk l =>
    show String.mk (l ++ []) = String.mk l
    rw [List.append_nil]

/-- A prefix test only inspects the first `p.length` characters. -/
theorem isPrefixCL_take (p l : List Char) :
    isPrefixCL p l = isPrefixCL p (l.take p.length) := by
  induction p generalizing l with
  | nil => cases l <;> rfl
  | cons a ps ih =>
    cases l with
    | nil => rfl
    | cons c cs =>
      simp only [List.length_cons, List.take_succ_cons, isPrefixCL]
      rw [ih cs]

/-- Taking `k` characters never reaches past `k` characters of `b`. -/
theorem take_append_take (k : Nat) (t b : List Char) :
    (t ++ b.take k).take k = (t ++ b).take k := by
  rw [List.take_append_eq_append_take, List.take_append_eq_append_take, List.take_take]
  congr 1
  rw [min_eq_left]
  omega

/-- Absence of a pattern in `a ++ b` follows from absence in `b` and
absence in `a` extended by the first `pat.length - 1` characters of `b`
(no occurrence can straddle the boundary otherwise). -/
theorem containsCL_append_none (pat a b : List Char)
    (h1 : containsCL pat (a ++ b.take (pat.length - 1)) = false)
    (h2 : containsCL pat b = false) :
    containsCL pat (a ++ b) = false := by
  induction a with
  | nil => simpa using h2
  | cons c t ih =>
    simp only [List.cons_append, containsCL, Bool.or_eq_false_iff] at h1 ⊢
    refine ⟨?_, ih h1.2⟩
    rw [isPrefixCL_take] at h1 ⊢
    rcases h1 with ⟨hp, _⟩
    cases hpat : pat with
    | nil => rw [hpat] at hp; exact hp
    | cons x xs =>
      rw [hpat] at hp
      simp only [List.append_eq, List.length_cons, List.take_succ_cons] at hp ⊢
      have hlen : xs.length + 1 - 1 = xs.length := by omega
      rw [hlen] at hp
      rw [take_append_take xs.length t b] at hp
      exact hp

/-- A pattern whose first character never occurs in `l` does not occur
in `l`. -/
theorem containsCL_head_notMem (c : Char) (rest l : List Char)
    (h : l.all (fun x => x != c) = true) :
    containsCL (c :: rest) l = false := by
  induction l with
  | nil => rfl
  | cons a t ih =>
    simp only [List.all_cons, Bool.and_eq_true, bne_iff_ne, ne_eq] at h
    simp only [containsCL, Bool.or_eq_false_iff, isPrefixCL]
    constructor
    · have : (c == a) = false := by
        rw [beq_eq_false_iff_ne]
        exact fun e => h.1 (e ▸ rfl)
      simp [this]
    · exact ih (by simpa using h.2)

/-- Any character that is an RTL letter or a space triggers none of the
shaper's rewrite rules: it fails the `needsFix` character test, it is
not a period or a newline, and the escape chain maps it to itself. -/
theorem rtl_or_space_facts (c : Char) (h : isRtlChar c = true ∨ c = ' ') :
    needsFixChar c = false ∧ (c == '.') = false ∧ (c == '\n') = false
    ∧ escapeXmlDollarChar c = [c] := by
  rcases h with h | h
  · have hge : 0x0590 ≤ c.toNat := by
      simp only [isRtlChar, Bool.or_eq_true, decide_eq_true_eq] at h
      omega
    have hlow : ∀ d : Char, d.toNat < 0x0590 → (c == d) = false := by
      intro d hd
      rw [beq_eq_false_iff_ne]
      intro he
      rw [he] at hge
      omega
    refine ⟨?_, hlow '.' (by decide), hlow '\n' (by decide), ?_⟩
    · simp only [needsFixChar, Bool.or_eq_false_iff]
      refine ⟨⟨⟨?_, ?_⟩, hlow '/' (by decide)⟩, hlow '\\' (by decide)⟩
      · simp only [isLatinLetterC, Bool.or_eq_false_iff, decide_eq_false_iff_not, not_and]
        exact ⟨fun _ => by omega, fun _ => by omega⟩
      · simp only [isAsciiDigitC, decide_eq_false_iff_not, not_and]
        exact fun _ => by omega
    · unfold escapeXmlDollarChar
      rw [hlow '&' (by decide), hlow '<' (by decide), hlow '>' (by decide),
        hlow '"' (by decide), hlow (Char.ofNat 39) (by decide), hlow '$' (by decide)]
      simp only [Bool.false_eq_true, if_false]
  · subst h
    decide

/-- A pure RTL-and-spaces text fails the `needsFix` test. -/
theorem needsFix_pure (l : List Char)
    (h : ∀ c ∈ l, isRtlChar c = true ∨ c = ' ') :
    needsFix l = false := by
  unfold needsFix
  rw [Bool.or_eq_false_iff]
  constructor
  · rw [List.any_eq_false]
    intro c hc
    exact ((rtl_or_space_facts c (h c hc)).1 : needsFixChar c = false) ▸ by simp
  · induction l with
    | nil => rfl
    | cons a t ih =>
      cases t with
      | nil => rfl
      | cons b t2 =>
        have ha := (rtl_or_space_facts a (h a (by simp))).2.1
        have ih2 := ih (fun c hc => h c (by simp [hc]))
        simp only [hasDoubleDot, ha, Bool.false_and, Bool.false_or]
        exact ih2

/-- A pure RTL-and-spaces text has no newline, hence a single line. -/
theorem splitLinesJs_pure (l : List Char)
    (h : ∀ c ∈ l, isRtlChar c = true ∨ c = ' ') :
    splitLinesJs l = [l] := by
  induction l with
  | nil => rfl
  | cons c t ih =>
    have hc := (rtl_or_space_facts c (h c (by simp))).2.2.1
    have iht := ih (fun x hx => h x (by simp [hx]))
    simp [splitLinesJs, hc, iht]

/-- A pure RTL-and-spaces line passes the escape chain unchanged. -/
theorem escapeXmlDollar_pure (l : List Char)
    (h : ∀ c ∈ l, isRtlChar c = true ∨ c = ' ') :
    escapeXmlDollar l = l := by
  induction l with
  | nil => rfl
  | cons c t ih =>
    have hc := (rtl_or_space_facts c (h c (by simp))).2.2.2
    have iht := ih (fun x hx => h x (by simp [hx]))
    unfold escapeXmlDollar at iht ⊢
    simp only [List.map_cons, List.flatten_cons, hc, iht, List.singleton_append]


/-- Claim C3: if cancel-export is invoked while a Word-based conversion
is in progress, then when the spawned converter process terminates the
conversion promise rejects with `Export cancelled`, the temporary docx
and pdf files of the export are deleted, and no result buffer is
resolved. -/
theorem c3_cancel_rejects_and_cleans (g : ExportGlobals) (pid : Nat)
    (files : TempFiles) (code : Int) (pdfReady : Bool) (pdfBytes : List Nat)
    (hprog : g.currentExportProcess = some pid) :
    wordPdfCloseHandler (cancelExportHandler g).1 files code pdfReady pdfBytes =
      (⟨none, true⟩, ⟨false, false⟩, PromiseOutcome.rejected "Export cancelled")
    ∧ ∀ buf : List Nat,
        (wordPdfCloseHandler (cancelExportHandler g).1 files code pdfReady pdfBytes).2.2
          ≠ PromiseOutcome.resolvedBuffer buf := by
  have hc : (cancelExportHandler g).1 = ⟨none, true⟩ := by
    simp [cancelExportHandler, hprog]
  rw [hc]
  constructor
  · simp [wordPdfCloseHandler]
  · intro buf
    simp [wordPdfCloseHandler]

/-- Witness for C3 at a concrete in-progress export. -/
theorem c3_witness :
    wordPdfCloseHandler (cancelExportHandler ⟨some 7, false⟩).1 ⟨true, true⟩ 1 true [3, 4] =
      (⟨none, true⟩, ⟨false, false⟩, PromiseOutcome.rejected "Export cancelled")
    ∧ ∀ buf : List Nat,
        (wordPdfCloseHandler (cancelExportHandler ⟨some 7, false⟩).1 ⟨true, true⟩ 1 true [3, 4]).2.2
          ≠ PromiseOutcome.resolvedBuffer buf :=
  c3_cancel_rejects_and_cleans ⟨some 7, false⟩ 7 ⟨true, true⟩ 1 true [3, 4] rfl

/-- Counterexample to claim C8 as stated: the module-level variable
`currentExportProcess` written by a first in-progress export invocation
is overwritten by a second concurrent invocation, so the two exports do
contend over shared mutable state. -/
theorem c8_counterexample :
    (startWordExport 2 (startWordExport 1 exportsInit)).currentExportProcess
        ≠ (startWordExport 1 exportsInit).currentExportProcess
    ∧ (startWordExport 1 exportsInit).currentExportProcess = some 1
    ∧ (startWordExport 2 (startWordExport 1 exportsInit)).currentExportProcess = some 2 := by
  decide

/-- Claim C8, amended: the export handlers share the module-level
variables `currentExportProcess` and `exportCancelled`; a second export
started while another is in progress overwrites the tracked process and
resets the shared cancellation flag, so a subsequent cancel-export kills
only the most recently started export. -/
theorem c8_amended_shared_globals (g : ExportGlobals) (p1 p2 : Nat) :
    startWordExport p2 (startWordExport p1 g) = startWordExport p2 g
    ∧ (startWordExport p2 (startWordExport p1 g)).currentExportProcess = some p2
    ∧ (startWordExport p2 (startWordExport p1 g)).exportCancelled = false
    ∧ (cancelExportHandler (startWordExport p2 (startWordExport p1 g))).2 = some p2 := by
  refine ⟨rfl, rfl, rfl, ?_⟩
  simp [cancelExportHandler, startWordExport]

/-- Claim C6: a multi-page conversion with progress on a document of
P >= 1 pages invokes the progress callback exactly P times; the i-th
invocation carries current = i and total = P, and the percent forwarded
by the plugin listener is the integer truncation of current*100/total,
so the final invocation reports 100 percent. -/
theorem c6_progress_events (inputPath : String) (env : LokEnv)
    (hreach : endsWithPdfLower inputPath = true ∨ env.convertOk = true)
    (hpos : 1 ≤ env.pageCount) :
    (((convertToImagesViaPdfWithProgress inputPath env).2).map
        (fun pr => lokPluginProgressEvent pr.1 pr.2)).length = env.pageCount
    ∧ (∀ i, i < env.pageCount →
        (((convertToImagesViaPdfWithProgress inputPath env).2).map
            (fun pr => lokPluginProgressEvent pr.1 pr.2))[i]? =
          some (i + 1, env.pageCount, (i + 1) * 100 / env.pageCount))
    ∧ (((convertToImagesViaPdfWithProgress inputPath env).2).map
        (fun pr => lokPluginProgressEvent pr.1 pr.2))[env.pageCount - 1]? =
        some (env.pageCount, env.pageCount, 100) := by
  have hzero : (env.pageCount == 0) = false := by
    simp only [beq_eq_false_iff_ne, ne_eq]
    omega
  have htrace : (convertToImagesViaPdfWithProgress inputPath env).2 =
      (List.range env.pageCount).map (fun i => (i + 1, env.pageCount)) := by
    by_cases hpdf : endsWithPdfLower inputPath = true
    · simp [convertToImagesViaPdfWithProgress, hpdf, lokRenderWithProgress, hzero]
    · rcases hreach with h | h
      · exact absurd h hpdf
      · simp [convertToImagesViaPdfWithProgress, hpdf, h, lokRenderWithProgress, hzero]
  rw [htrace, List.map_map]
  have hget : ∀ i, i < env.pageCount →
      ((List.range env.pageCount).map
        ((fun pr : Nat × Nat => lokPluginProgressEvent pr.1 pr.2) ∘
          fun i => (i + 1, env.pageCount)))[i]? =
      some (i + 1, env.pageCount, (i + 1) * 100 / env.pageCount) := by
    intro i hi
    rw [List.getElem?_map, List.getElem?_range hi]
    rfl
  refine ⟨by simp, hget, ?_⟩
  have hlast := hget (env.pageCount - 1) (by omega)
  rw [hlast]
  have hP : env.pageCount - 1 + 1 = env.pageCount := by omega
  rw [hP]
  have : env.pageCount * 100 / env.pageCount = 100 := by
    rw [Nat.mul_comm]
    exact Nat.mul_div_cancel 100 (by omega)
  rw [this]

/-- Witness for C6 at a concrete three-page conversion. -/
theorem c6_witness :
    (((convertToImagesViaPdfWithProgress "a.pdf" ⟨2 ^ 30, true, 3, true⟩).2).map
        (fun pr => lokPluginProgressEvent pr.1 pr.2)).length = 3
    ∧ (∀ i, i < 3 →
        (((convertToImagesViaPdfWithProgress "a.pdf" ⟨2 ^ 30, true, 3, true⟩).2).map
            (fun pr => lokPluginProgressEvent pr.1 pr.2))[i]? =
          some (i + 1, 3, (i + 1) * 100 / 3))
    ∧ (((convertToImagesViaPdfWithProgress "a.pdf" ⟨2 ^ 30, true, 3, true⟩).2).map
        (fun pr => lokPluginProgressEvent pr.1 pr.2))[2]? = some (3, 3, 100) :=
  c6_progress_events "a.pdf" ⟨2 ^ 30, true, 3, true⟩ (Or.inl (by decide)) (by decide)

/-- Claim C9: the dynamic page limit is always between 10 and 150 and
(whenever the Java `(int)` narrowing is value-preserving) equals
`max(10, min(150, availableMem/2 / 4MiB))`; `convertToImageViaPdf` and
`convertToImagesViaPdf` throw the too-many-pages exception exactly when
the rendered page count exceeds the limit, while
`convertToImagesViaPdfWithProgress` imposes no page limit. -/
theorem c9_dynamic_page_limit (availableMem : Int) :
    10 ≤ calculateMaxPages availableMem
    ∧ calculateMaxPages availableMem ≤ 150
    ∧ (-(2 ^ 31) ≤ (availableMem.tdiv 2).tdiv (4 * 1024 * 1024) →
        (availableMem.tdiv 2).tdiv (4 * 1024 * 1024) < 2 ^ 31 →
        calculateMaxPages availableMem =
          max 10 (min 150 ((availableMem.tdiv 2).tdiv (4 * 1024 * 1024))))
    ∧ (∀ (inputPath : String) (env : LokEnv),
        (endsWithPdfLower inputPath = true ∨ env.convertOk = true) →
        (((convertToImageViaPdf inputPath env).outcome = LokOutcome.tooManyPages) ↔
          (env.pageCount : Int) > calculateMaxPages env.availableMem)
        ∧ (((convertToImagesViaPdf inputPath env).outcome = LokOutcome.tooManyPages) ↔
          (env.pageCount : Int) > calculateMaxPages env.availableMem))
    ∧ (∀ (inputPath : String) (env : LokEnv),
        (convertToImagesViaPdfWithProgress inputPath env).1.outcome ≠
          LokOutcome.tooManyPages) := by
  refine ⟨le_max_left 10 _, max_le (by norm_num) (min_le_left 150 _), ?_, ?_, ?_⟩
  · intro h1 h2
    have hj : javaIntCast ((availableMem.tdiv 2).tdiv (4 * 1024 * 1024)) =
        (availableMem.tdiv 2).tdiv (4 * 1024 * 1024) := by
      unfold javaIntCast
      omega
    simp only [calculateMaxPages]
    rw [hj]
  · intro inputPath env hreach
    have hgate : ∀ u v : Bool,
        ((lokRenderGated env u v).outcome = LokOutcome.tooManyPages) ↔
          (env.pageCount : Int) > calculateMaxPages env.availableMem := by
      intro u v
      simp only [lokRenderGated]
      by_cases hgt : (env.pageCount : Int) > calculateMaxPages env.availableMem
      · rw [if_pos hgt]
        simp [hgt]
      · rw [if_neg hgt]
        by_cases hz : (env.pageCount == 0) = true
        · rw [if_pos hz]
          constructor
          · intro h; exact absurd h (by simp)
          · intro h; exact absurd h hgt
        · rw [if_neg hz]
          constructor
          · intro h
            by_cases hs : env.saveOk = true
            · rw [if_pos hs] at h; exact absurd h (by simp)
            · rw [if_neg hs] at h; exact absurd h (by simp)
          · intro h; exact absurd h hgt
    have himg : convertToImageViaPdf inputPath env = convertToImagesViaPdf inputPath env := rfl
    constructor
    · unfold convertToImageViaPdf
      by_cases hpdf : endsWithPdfLower inputPath = true
      · rw [if_pos hpdf]
        exact hgate false true
      · rw [if_neg hpdf]
        rcases hreach with h | h
        · exact absurd h hpdf
        · rw [if_neg (by simp [h])]
          exact hgate true false
    · unfold convertToImagesViaPdf
      by_cases hpdf : endsWithPdfLower inputPath = true
      · rw [if_pos hpdf]
        exact hgate false true
      · rw [if_neg hpdf]
        rcases hreach with h | h
        · exact absurd h hpdf
        · rw [if_neg (by simp [h])]
          exact hgate true false
  · intro inputPath env
    have hnog : ∀ u v : Bool,
        (lokRenderWithProgress env u v).1.outcome ≠ LokOutcome.tooManyPages := by
      intro u v
      simp only [lokRenderWithProgress]
      by_cases hz : (env.pageCount == 0) = true
      · rw [if_pos hz]
        simp
      · rw [if_neg hz]
        by_cases hs : env.saveOk = true
        · rw [if_pos hs]
          simp
        · rw [if_neg hs]
          simp
    unfold convertToImagesViaPdfWithProgress
    by_cases hpdf : endsWithPdfLower inputPath = true
    · rw [if_pos hpdf]
      exact hnog false true
    · rw [if_neg hpdf]
      by_cases hc : env.convertOk = true
      · rw [if_neg (by simp [hc])]
        exact hnog true false
      · rw [if_pos (by simp [hc])]
        simp

/-- Witness for C9 at a concrete memory state of 8 GiB and a 151-page
document. -/
theorem c9_witness :
    10 ≤ calculateMaxPages (2 ^ 33)
    ∧ calculateMaxPages (2 ^ 33) ≤ 150
    ∧ calculateMaxPages (2 ^ 33) =
        max 10 (min 150 (((2 ^ 33 : Int).tdiv 2).tdiv (4 * 1024 * 1024)))
    ∧ ((convertToImageViaPdf "doc.docx" ⟨2 ^ 33, true, 151, true⟩).outcome =
          LokOutcome.tooManyPages ↔
        ((151 : Nat) : Int) > calculateMaxPages (2 ^ 33))
    ∧ (convertToImagesViaPdfWithProgress "doc.docx" ⟨2 ^ 33, true, 151, true⟩).1.outcome ≠
        LokOutcome.tooManyPages := by
  obtain ⟨h1, h2, h3, h4, h5⟩ := c9_dynamic_page_limit (2 ^ 33)
  exact ⟨h1, h2, h3 (by decide) (by decide),
    (h4 "doc.docx" ⟨2 ^ 33, true, 151, true⟩ (Or.inr rfl)).1,
    h5 "doc.docx" ⟨2 ^ 33, true, 151, true⟩⟩

/-- Counterexample to claim C10 as stated: converting a non-PDF document
whose rendered PDF has zero pages takes the early `return false` path,
which leaves the temporary PDF it created undeleted, contradicting
"that temporary PDF is deleted on ... every failure path". -/
theorem c10_counterexample :
    (convertToImageViaPdf "letter.docx" ⟨2 ^ 30, true, 0, true⟩).tempPdfCreated = true
    ∧ (convertToImageViaPdf "letter.docx" ⟨2 ^ 30, true, 0, true⟩).outcome = LokOutcome.failed
    ∧ (convertToImageViaPdf "letter.docx" ⟨2 ^ 30, true, 0, true⟩).tempPdfDeleted = false := by
  decide

/-- Claim C10, amended: for inputs ending in `.pdf` (case-insensitively)
all three conversion routines skip the document-to-PDF step, use the
input file directly and never delete it; when a temporary PDF is
actually created from a non-PDF input, it is deleted exactly when the
rendered page count is non-zero (i.e. on the success path, the
save-failure path and the page-limit exception path, but not on the
early zero-page `return` path). -/
theorem c10_temp_pdf_lifecycle (inputPath : String) (env : LokEnv) :
    (endsWithPdfLower inputPath = true →
      (convertToImageViaPdf inputPath env).usedInputAsPdf = true
      ∧ (convertToImageViaPdf inputPath env).tempPdfDeleted = false
      ∧ (convertToImagesViaPdf inputPath env).usedInputAsPdf = true
      ∧ (convertToImagesViaPdf inputPath env).tempPdfDeleted = false
      ∧ (convertToImagesViaPdfWithProgress inputPath env).1.usedInputAsPdf = true
      ∧ (convertToImagesViaPdfWithProgress inputPath env).1.tempPdfDeleted = false)
    ∧ ((convertToImageViaPdf inputPath env).tempPdfCreated = true →
        ((convertToImageViaPdf inputPath env).tempPdfDeleted = true ↔ env.pageCount ≠ 0))
    ∧ ((convertToImagesViaPdf inputPath env).tempPdfCreated = true →
        ((convertToImagesViaPdf inputPath env).tempPdfDeleted = true ↔ env.pageCount ≠ 0))
    ∧ ((convertToImagesViaPdfWithProgress inputPath env).1.tempPdfCreated = true →
        ((convertToImagesViaPdfWithProgress inputPath env).1.tempPdfDeleted = true ↔
          env.pageCount ≠ 0)) := by
  have hgfields : ∀ u v : Bool,
      (lokRenderGated env u v).usedInputAsPdf = v
      ∧ (lokRenderGated env u v).tempPdfCreated = u
      ∧ (u = false → (lokRenderGated env u v).tempPdfDeleted = false) := by
    intro u v
    simp only [lokRenderGated]
    by_cases hgt : (env.pageCount : Int) > calculateMaxPages env.availableMem
    · rw [if_pos hgt]
      exact ⟨rfl, rfl, fun h => h⟩
    · rw [if_neg hgt]
      by_cases hz : (env.pageCount == 0) = true
      · rw [if_pos hz]
        exact ⟨rfl, rfl, fun _ => rfl⟩
      · rw [if_neg hz]
        exact ⟨rfl, rfl, fun h => h⟩
  have hgdel : ∀ v : Bool,
      ((lokRenderGated env true v).tempPdfDeleted = true ↔ env.pageCount ≠ 0) := by
    intro v
    simp only [lokRenderGated]
    by_cases hgt : (env.pageCount : Int) > calculateMaxPages env.availableMem
    · rw [if_pos hgt]
      have h10 : (10 : Int) ≤ calculateMaxPages env.availableMem := le_max_left 10 _
      constructor
      · intro _
        omega
      · intro _
        rfl
    · rw [if_neg hgt]
      by_cases hz : (env.pageCount == 0) = true
      · rw [if_pos hz]
        simp only [beq_iff_eq] at hz
        constructor
        · intro h
          exact absurd h (by simp)
        · intro h
          exact absurd hz h
      · rw [if_neg hz]
        simp only [beq_iff_eq] at hz
        constructor
        · intro _
          exact hz
        · intro _
          rfl
  have hpfields : ∀ u v : Bool,
      (lokRenderWithProgress env u v).1.usedInputAsPdf = v
      ∧ (lokRenderWithProgress env u v).1.tempPdfCreated = u
      ∧ (u = false → (lokRenderWithProgress env u v).1.tempPdfDeleted = false)
      ∧ (u = true → ((lokRenderWithProgress env u v).1.tempPdfDeleted = true ↔
          env.pageCount ≠ 0)) := by
    intro u v
    simp only [lokRenderWithProgress]
    by_cases hz : (env.pageCount == 0) = true
    · rw [if_pos hz]
      simp only [beq_iff_eq] at hz
      refine ⟨rfl, rfl, fun _ => rfl, fun _ => ?_⟩
      constructor
      · intro h
        exact absurd h (by simp)
      · intro h
        exact absurd hz h
    · rw [if_neg hz]
      simp only [beq_iff_eq] at hz
      refine ⟨rfl, rfl, fun h => h, fun hu => ?_⟩
      rw [hu]
      simp [hz]
  by_cases hpdf : endsWithPdfLower inputPath = true
  · have e1 : convertToImageViaPdf inputPath env = lokRenderGated env false true := by
      unfold convertToImageViaPdf
      rw [if_pos hpdf]
    have e2 : convertToImagesViaPdf inputPath env = lokRenderGated env false true := by
      unfold convertToImagesViaPdf
      rw [if_pos hpdf]
    have e3 : convertToImagesViaPdfWithProgress inputPath env =
        lokRenderWithProgress env false true := by
      unfold convertToImagesViaPdfWithProgress
      rw [if_pos hpdf]
    refine ⟨fun _ => ?_, fun hcr => ?_, fun hcr => ?_, fun hcr => ?_⟩
    · rw [e1, e2, e3]
      exact ⟨(hgfields false true).1, (hgfields false true).2.2 rfl,
        (hgfields false true).1, (hgfields false true).2.2 rfl,
        (hpfields false true).1, (hpfields false true).2.2.1 rfl⟩
    · rw [e1] at hcr
      rw [(hgfields false true).2.1] at hcr
      exact absurd hcr (by simp)
    · rw [e2] at hcr
      rw [(hgfields false true).2.1] at hcr
      exact absurd hcr (by simp)
    · rw [e3] at hcr
      rw [(hpfields false true).2.1] at hcr
      exact absurd hcr (by simp)
  · by_cases hc : env.convertOk = true
    · have e1 : convertToImageViaPdf inputPath env = lokRenderGated env true false := by
        unfold convertToImageViaPdf
        rw [if_neg hpdf, if_neg (by simp [hc])]
      have e2 : convertToImagesViaPdf inputPath env = lokRenderGated env true false := by
        unfold convertToImagesViaPdf
        rw [if_neg hpdf, if_neg (by simp [hc])]
      have e3 : convertToImagesViaPdfWithProgress inputPath env =
          lokRenderWithProgress env true false := by
        unfold convertToImagesViaPdfWithProgress
        rw [if_neg hpdf, if_neg (by simp [hc])]
      refine ⟨fun hp => absurd hp hpdf, fun _ => ?_, fun _ => ?_, fun _ => ?_⟩
      · rw [e1]
        exact hgdel false
      · rw [e2]
        exact hgdel false
      · rw [e3]
        exact (hpfields true false).2.2.2 rfl
    · have hcf : (!env.convertOk) = true := by
        rw [Bool.not_eq_true] at hc
        rw [hc]
        rfl
      have e1 : convertToImageViaPdf inputPath env = ⟨LokOutcome.failed, false, false, false⟩ := by
        unfold convertToImageViaPdf
        rw [if_neg hpdf, if_pos hcf]
      have e2 : convertToImagesViaPdf inputPath env = ⟨LokOutcome.failed, false, false, false⟩ := by
        unfold convertToImagesViaPdf
        rw [if_neg hpdf, if_pos hcf]
      have e3 : convertToImagesViaPdfWithProgress inputPath env =
          (⟨LokOutcome.failed, false, false, false⟩, []) := by
        unfold convertToImagesViaPdfWithProgress
        rw [if_neg hpdf, if_pos hcf]
      refine ⟨fun hp => absurd hp hpdf, fun hcr => ?_, fun hcr => ?_, fun hcr => ?_⟩
      · rw [e1] at hcr
        exact absurd hcr (by simp)
      · rw [e2] at hcr
        exact absurd hcr (by simp)
      · rw [e3] at hcr
        exact absurd hcr (by simp)

/-- Witness for the amended C10 at a concrete uppercase PDF input and a
concrete docx input with a two-page render. -/
theorem c10_witness :
    ((convertToImageViaPdf "SCAN.PDF" ⟨2 ^ 30, true, 2, true⟩).usedInputAsPdf = true
      ∧ (convertToImageViaPdf "SCAN.PDF" ⟨2 ^ 30, true, 2, true⟩).tempPdfDeleted = false
      ∧ (convertToImagesViaPdf "SCAN.PDF" ⟨2 ^ 30, true, 2, true⟩).usedInputAsPdf = true
      ∧ (convertToImagesViaPdf "SCAN.PDF" ⟨2 ^ 30, true, 2, true⟩).tempPdfDeleted = false
      ∧ (convertToImagesViaPdfWithProgress "SCAN.PDF" ⟨2 ^ 30, true, 2, true⟩).1.usedInputAsPdf = true
      ∧ (convertToImagesViaPdfWithProgress "SCAN.PDF" ⟨2 ^ 30, true, 2, true⟩).1.tempPdfDeleted = false)
    ∧ ((convertToImageViaPdf "doc.docx" ⟨2 ^ 30, true, 2, true⟩).tempPdfDeleted = true ↔
        (2 : Nat) ≠ 0) :=
  ⟨(c10_temp_pdf_lifecycle "SCAN.PDF" ⟨2 ^ 30, true, 2, true⟩).1 (by decide),
   (c10_temp_pdf_lifecycle "doc.docx" ⟨2 ^ 30, true, 2, true⟩).2.1 (by decide)⟩

/-- Folding `max` from the left equals `max` of the accumulator with the
fold from the right. -/
theorem foldl_max_eq (acc : Nat) (l : List Nat) :
    l.foldl max acc = max acc (l.foldr max 0) := by
  induction l generalizing acc with
  | nil => simp
  | cons c t ih =>
    simp only [List.foldl_cons, List.foldr_cons, ih (max acc c)]
    omega

/-- Folding `+` from the left equals the accumulator plus the sum. -/
theorem foldl_add_eq (acc : Nat) (l : List Nat) :
    l.foldl (· + ·) acc = acc + l.sum := by
  induction l generalizing acc with
  | nil => simp
  | cons c t ih =>
    simp only [List.foldl_cons, List.sum_cons, ih (acc + c)]
    omega

/-- The combine-branch accumulator loop computes the maximum width. -/
theorem maxWidthOf_eq (files : List PageImg) :
    maxWidthOf files = (files.map PageImg.width).foldr max 0 := by
  unfold maxWidthOf
  rw [← List.foldl_map PageImg.width max files 0, foldl_max_eq]
  omega

/-- The combine-branch accumulator loop computes the total height. -/
theorem totalHeightOf_eq (files : List PageImg) :
    totalHeightOf files = (files.map PageImg.height).sum := by
  unfold totalHeightOf
  rw [← List.foldl_map PageImg.height (· + ·) files 0, foldl_add_eq]
  omega

/-- The drawing loop places the pages at the running height offsets. -/
theorem drawLoop_eq_zip (y : Nat) (files : List PageImg) :
    drawLoop y files = files.zip (stackOffsets y (files.map PageImg.height)) := by
  induction files generalizing y with
  | nil => rfl
  | cons f r ih =>
    simp only [drawLoop, List.map_cons, stackOffsets, List.zip_cons_cons]
    rw [ih (y + f.height)]

/-- The page-numbering loop pairs the pages with 1-based indices. -/
theorem pageNumber_eq_zip (i : Nat) (files : List PageImg) :
    pageNumber i files =
      files.zip ((List.range files.length).map (fun k => i + k + 1)) := by
  induction files generalizing i with
  | nil => rfl
  | cons f r ih =>
    simp only [pageNumber, List.length_cons, List.range_succ_eq_map, List.map_cons,
      List.map_map, List.zip_cons_cons]
    rw [ih (i + 1)]
    have e : ((fun k => i + k + 1) ∘ Nat.succ) = (fun k => i + 1 + k + 1) := by
      funext k
      simp only [Function.comp_apply, Nat.succ_eq_add_one]
      omega
    rw [e]

/-- An element's width never exceeds the folded maximum width. -/
theorem width_le_foldr_max (files : List PageImg) :
    ∀ img ∈ files, img.width ≤ (files.map PageImg.width).foldr max 0 := by
  induction files with
  | nil => intro img h; cases h
  | cons f r ih =>
    intro img h
    rw [List.mem_cons] at h
    rcases h with h | h
    · subst h
      simp only [List.map_cons, List.foldr_cons]
      omega
    · have := ih img h
      simp only [List.map_cons, List.foldr_cons]
      omega

/-- Claim C2: a successful combine-pages image export yields one buffer
whose width is the maximum page width and whose height is the sum of the
page heights, with the pages stacked vertically in page order; without
the combine flag it yields one buffer per page, numbered from 1 in page
order. -/
theorem c2_image_export_shape (files : List PageImg) (res : ImageExportResult) :
    (convertDocxToImageWord files true = Except.ok res →
      resultWidth res = (files.map PageImg.width).foldr max 0
      ∧ (∀ img ∈ files, img.width ≤ resultWidth res)
      ∧ resultHeight res = (files.map PageImg.height).sum
      ∧ resultDraws res = files.zip (stackOffsets 0 (files.map PageImg.height)))
    ∧ (convertDocxToImageWord files false = Except.ok res →
      res = ImageExportResult.multiple
        (files.zip ((List.range files.length).map (fun k => k + 1)))) := by
  constructor
  · cases files with
    | nil => intro h; cases h
    | cons f rest =>
      cases rest with
      | nil =>
        intro h
        have hres : res = ImageExportResult.single f := by
          simpa [convertDocxToImageWord] using h.symm
        subst hres
        refine ⟨?_, ?_, ?_, ?_⟩
        · simp [resultWidth]
        · intro img hm
          rw [List.mem_singleton] at hm
          subst hm
          simp [resultWidth]
        · simp [resultHeight]
        · simp [resultDraws, stackOffsets]
      | cons g rest2 =>
        intro h
        have hres : res = ImageExportResult.combined
            ⟨maxWidthOf (f :: g :: rest2), totalHeightOf (f :: g :: rest2),
              drawLoop 0 (f :: g :: rest2)⟩ := by
          simpa [convertDocxToImageWord] using h.symm
        subst hres
        refine ⟨?_, ?_, ?_, ?_⟩
        · simp [resultWidth, maxWidthOf_eq]
        · intro img hm
          simp only [resultWidth, maxWidthOf_eq]
          exact width_le_foldr_max (f :: g :: rest2) img hm
        · simp [resultHeight, totalHeightOf_eq]
        · simp [resultDraws, drawLoop_eq_zip]
  · cases files with
    | nil => intro h; cases h
    | cons f rest =>
      intro h
      have hres : res = ImageExportResult.multiple (pageNumber 0 (f :: rest)) := by
        simpa [convertDocxToImageWord] using h.symm
      subst hres
      rw [pageNumber_eq_zip]
      simp only [Nat.zero_add]

/-- Witness for C2 at a concrete two-page export, combined and not. -/
theorem c2_witness :
    (resultWidth (ImageExportResult.combined
        ⟨maxWidthOf [⟨100, 200, 1⟩, ⟨50, 300, 2⟩], totalHeightOf [⟨100, 200, 1⟩, ⟨50, 300, 2⟩],
          drawLoop 0 [⟨100, 200, 1⟩, ⟨50, 300, 2⟩]⟩) =
      (([⟨100, 200, 1⟩, ⟨50, 300, 2⟩] : List PageImg).map PageImg.width).foldr max 0)
    ∧ resultDraws (ImageExportResult.combined
        ⟨maxWidthOf [⟨100, 200, 1⟩, ⟨50, 300, 2⟩], totalHeightOf [⟨100, 200, 1⟩, ⟨50, 300, 2⟩],
          drawLoop 0 [⟨100, 200, 1⟩, ⟨50, 300, 2⟩]⟩) =
      ([⟨100, 200, 1⟩, ⟨50, 300, 2⟩] : List PageImg).zip
        (stackOffsets 0 (([⟨100, 200, 1⟩, ⟨50, 300, 2⟩] : List PageImg).map PageImg.height)) :=
  ⟨((c2_image_export_shape [⟨100, 200, 1⟩, ⟨50, 300, 2⟩] _).1 rfl).1,
   ((c2_image_export_shape [⟨100, 200, 1⟩, ⟨50, 300, 2⟩] _).1 rfl).2.2.2⟩


/-- Claim C7: the bidirectional text shaper `fixArabicText` (both the
export-path copy and the reduced print-path copy) returns any string
containing only right-to-left letters and spaces unchanged. -/
theorem c7_bidi_identity_on_rtl (s : String)
    (h : ∀ c ∈ s.data, isRtlChar c = true ∨ c = ' ') :
    fixArabicText s = s ∧ fixArabicTextPrint s = s := by
  by_cases hs : s = ""
  · subst hs
    exact ⟨rfl, rfl⟩
  · have hnf : needsFix s.data = false := needsFix_pure s.data h
    have hsplit : splitLinesJs s.data = [s.data] := splitLinesJs_pure s.data h
    have hesc : escapeXmlDollar s.data = s.data := escapeXmlDollar_pure s.data h
    constructor
    · unfold fixArabicText
      rw [if_neg hs, hnf]
      simp only [Bool.false_eq_true, if_false, hsplit, List.map_cons, List.map_nil,
        hnf, hesc, joinWithBr]
    · unfold fixArabicTextPrint
      rw [if_neg hs, hnf]
      simp only [Bool.false_eq_true, if_false, hsplit, List.map_cons, List.map_nil,
        hesc, joinWithBr]

/-- Witness for C7 at a concrete Arabic string. -/
theorem c7_witness :
    (∀ c ∈ ("سلام عليكم" : String).data, isRtlChar c = true ∨ c = ' ')
    ∧ fixArabicText "سلام عليكم" = "سلام عليكم"
    ∧ fixArabicTextPrint "سلام عليكم" = "سلام عليكم" :=
  ⟨by decide, (c7_bidi_identity_on_rtl "سلام عليكم" (by decide)).1,
   (c7_bidi_identity_on_rtl "سلام عليكم" (by decide)).2⟩


/-- The full template decomposes around the show-date conditional. -/
theorem generateDocumentHtml_decomp (today : JsDate) (formData : FormData) :
    generateDocumentHtml today formData =
      c5pre formData ++
        ((if formData.showDate then dateRowsBlock today else "") ++ c5suf formData) := by
  unfold generateDocumentHtml c5pre c5suf dateRowsBlock
  simp only [strAppend_assoc]

/-- Normal form of the document for the empty, date-hidden form: a
right-nested chain of the literal chunks and the default field texts. -/
theorem html_fd0_chain :
    generateDocumentHtml d0 fd0 =
      tpl0a ++ (tpl0b ++ (tpl0c ++ (tpl0d ++ (tpl1 ++ (tpl2 ++ (tpl3 ++ (tpl4 ++
        ("المحترم" ++ (tpl5 ++ ("السلام عليكم ورحمة الله وبركاته.." ++ (tpl6 ++ (tpl7 ++
          (tpl8 ++ ("وشكراً.." ++ (tpl9 ++ (tpl10 ++ tpl11)))))))))))))))) := by
  have h1 : logoSrc fd0 = "" := rfl
  have h2 : copyToItems fd0 = "" := rfl
  have h3 : (("" : String) != "") = false := rfl
  have hsd : fd0.showDate = false := rfl
  have e1 : jsOr fd0.to "" = "" := rfl
  have e2 : jsOr fd0.to_the "المحترم" = "المحترم" := rfl
  have e3 : jsOr fd0.greetings "السلام عليكم ورحمة الله وبركاته.." =
      "السلام عليكم ورحمة الله وبركاته.." := rfl
  have e4 : jsOr fd0.subject_name "" = "" := rfl
  have e5 : jsOr fd0.subject "" = "" := rfl
  have e6 : jsOr fd0.ending "وشكراً.." = "وشكراً.." := rfl
  have e7 : jsOr fd0.sign "" = "" := rfl
  simp only [generateDocumentHtml, tpl0, h1, h2, h3, hsd, e1, e2, e3, e4, e5, e6, e7,
    Bool.false_eq_true, if_false, strAppend_assoc, strEmpty_append, strAppend_empty]

/-- Character-list normal form of the same document. -/
theorem html_fd0_data :
    (generateDocumentHtml d0 fd0).data =
      tpl0a.data ++ (tpl0b.data ++ (tpl0c.data ++ (tpl0d.data ++ (tpl1.data ++ (tpl2.data ++
        (tpl3.data ++ (tpl4.data ++ ("المحترم".data ++ (tpl5.data ++
          ("السلام عليكم ورحمة الله وبركاته..".data ++ (tpl6.data ++ (tpl7.data ++
            (tpl8.data ++ ("وشكراً..".data ++ (tpl9.data ++ (tpl10.data ++
              tpl11.data)))))))))))))))) := by
  rw [html_fd0_chain]
  simp only [strData_append]

set_option maxRecDepth 20000 in
/-- With the date hidden, the date-row label occurs nowhere in the
document (checked chunk by chunk). -/
theorem html_fd0_no_date_label :
    strContains (generateDocumentHtml d0 fd0) "التاريـخ:" = false := by
  unfold strContains
  rw [html_fd0_data]
  refine containsCL_append_none _ _ _ (by decide) ?_
  refine containsCL_append_none _ _ _ (by decide) ?_
  refine containsCL_append_none _ _ _ (by decide) ?_
  refine containsCL_append_none _ _ _ (by decide) ?_
  refine containsCL_append_none _ _ _ (by decide) ?_
  refine containsCL_append_none _ _ _ (by decide) ?_
  refine containsCL_append_none _ _ _ (by decide) ?_
  refine containsCL_append_none _ _ _ (by decide) ?_
  refine containsCL_append_none _ _ _ (by decide) ?_
  refine containsCL_append_none _ _ _ (by decide) ?_
  refine containsCL_append_none _ _ _ (by decide) ?_
  refine containsCL_append_none _ _ _ (by decide) ?_
  refine containsCL_append_none _ _ _ (by decide) ?_
  refine containsCL_append_none _ _ _ (by decide) ?_
  refine containsCL_append_none _ _ _ (by decide) ?_
  refine containsCL_append_none _ _ _ (by decide) ?_
  refine containsCL_append_none _ _ _ (by decide) ?_
  decide

set_option maxRecDepth 20000 in
/-- With the date hidden, the day-row label occurs nowhere in the
document (checked chunk by chunk). -/
theorem html_fd0_no_day_label :
    strContains (generateDocumentHtml d0 fd0) "اليـــوم:" = false := by
  unfold strContains
  rw [html_fd0_data]
  refine containsCL_append_none _ _ _ (by decide) ?_
  refine containsCL_append_none _ _ _ (by decide) ?_
  refine containsCL_append_none _ _ _ (by decide) ?_
  refine containsCL_append_none _ _ _ (by decide) ?_
  refine containsCL_append_none _ _ _ (by decide) ?_
  refine containsCL_append_none _ _ _ (by decide) ?_
  refine containsCL_append_none _ _ _ (by decide) ?_
  refine containsCL_append_none _ _ _ (by decide) ?_
  refine containsCL_append_none _ _ _ (by decide) ?_
  refine containsCL_append_none _ _ _ (by decide) ?_
  refine containsCL_append_none _ _ _ (by decide) ?_
  refine containsCL_append_none _ _ _ (by decide) ?_
  refine containsCL_append_none _ _ _ (by decide) ?_
  refine containsCL_append_none _ _ _ (by decide) ?_
  refine containsCL_append_none _ _ _ (by decide) ?_
  refine containsCL_append_none _ _ _ (by decide) ?_
  refine containsCL_append_none _ _ _ (by decide) ?_
  decide

/-- With the date shown, the date-row label does occur. -/
theorem html_fd0d_has_date_label :
    strContains (generateDocumentHtml d0 fd0d) "التاريـخ:" = true := by
  apply strContains_of_decomp _ (c5pre fd0d ++ dr0x) "التاريـخ:"
      (dr0y ++ (dateStr d0 ++ (dr1 ++ (dayName d0 ++ (dr2 ++ c5suf fd0d)))))
  rw [generateDocumentHtml_decomp]
  show c5pre fd0d ++ ((if true then dateRowsBlock d0 else "") ++ c5suf fd0d) = _
  rw [if_pos (by simp)]
  unfold dateRowsBlock
  rw [show dr0 = dr0x ++ ("التاريـخ:" ++ dr0y) from rfl]
  simp only [strAppend_assoc]

/-- With the date shown, the day-row label does occur. -/
theorem html_fd0d_has_day_label :
    strContains (generateDocumentHtml d0 fd0d) "اليـــوم:" = true := by
  apply strContains_of_decomp _
      (c5pre fd0d ++ (dr0 ++ (dateStr d0 ++ dr1x))) "اليـــوم:"
      (dr1y ++ (dayName d0 ++ (dr2 ++ c5suf fd0d)))
  rw [generateDocumentHtml_decomp]
  show c5pre fd0d ++ ((if true then dateRowsBlock d0 else "") ++ c5suf fd0d) = _
  rw [if_pos (by simp)]
  unfold dateRowsBlock
  rw [show dr1 = dr1x ++ ("اليـــوم:" ++ dr1y) from rfl]
  simp only [strAppend_assoc]

/-- Claim C5: with the show-date flag false the produced document has no
date row and no day row, and everything outside the date/day rows is the
same string as with the flag true: the output factors as `pre ++ suf`
versus `pre ++ dateRows ++ suf` with identical `pre` and `suf`. -/
theorem c5_show_date_removal (today : JsDate) (formData : FormData) :
    (generateDocumentHtml today { formData with showDate := false } =
        c5pre formData ++ c5suf formData)
    ∧ (generateDocumentHtml today { formData with showDate := true } =
        c5pre formData ++ (dateRowsBlock today ++ c5suf formData))
    ∧ strContains (generateDocumentHtml d0 fd0) "التاريـخ:" = false
    ∧ strContains (generateDocumentHtml d0 fd0) "اليـــوم:" = false
    ∧ strContains (generateDocumentHtml d0 fd0d) "التاريـخ:" = true
    ∧ strContains (generateDocumentHtml d0 fd0d) "اليـــوم:" = true := by
  refine ⟨?_, ?_, html_fd0_no_date_label, html_fd0_no_day_label,
    html_fd0d_has_date_label, html_fd0d_has_day_label⟩
  · rw [generateDocumentHtml_decomp]
    show c5pre formData ++ ((if false then dateRowsBlock today else "") ++ c5suf formData) =
      c5pre formData ++ c5suf formData
    rw [if_neg (by simp)]
    rw [strEmpty_append]
  · rw [generateDocumentHtml_decomp]
    show c5pre formData ++ ((if true then dateRowsBlock today else "") ++ c5suf formData) =
      c5pre formData ++ (dateRowsBlock today ++ c5suf formData)
    rw [if_pos (by simp)]

/-- JavaScript `v || ''` is just `v` for a present field. -/
theorem jsOr_some_empty (v : String) : jsOr (some v) "" = v := by
  show (if v = "" then "" else v) = v
  by_cases hv : v = ""
  · rw [if_pos hv, hv]
  · rw [if_neg hv]

/-- Claim C1, amended: `generateDocumentHtml` applies no escaping at
all; the recipient field value is spliced into the output verbatim, so
any value, including one containing markup characters, occurs literally
as a substring of the produced document. -/
theorem c1_amended_verbatim_substitution (today : JsDate) (formData : FormData)
    (v : String) (h : formData.to = some v) :
    generateDocumentHtml today formData =
      c1pre today formData ++ (v ++ c1suf formData)
    ∧ strContains (generateDocumentHtml today formData) v = true := by
  have hdecomp : generateDocumentHtml today formData =
      c1pre today formData ++ (v ++ c1suf formData) := by
    unfold generateDocumentHtml c1pre c1suf c5pre dateRowsBlock
    rw [h, jsOr_some_empty]
    simp only [strAppend_assoc]
  exact ⟨hdecomp,
    strContains_of_decomp _ _ _ _ (by rw [hdecomp, strAppend_assoc])⟩

/-- Witness for the amended C1 at a concrete markup-carrying value. -/
theorem c1_witness :
    fdScript.to = some "<script>alert(1)</script>"
    ∧ strContains (generateDocumentHtml d0 fdScript) "<script>alert(1)</script>" = true :=
  ⟨rfl, (c1_amended_verbatim_substitution d0 fdScript "<script>alert(1)</script>" rfl).2⟩

/-- Normal form of the document for the markup-carrying recipient. -/
theorem html_fdScript_chain :
    generateDocumentHtml d0 fdScript =
      tpl0a ++ (tpl0b ++ (tpl0c ++ (tpl0d ++ (tpl1 ++ (tpl2 ++ (tpl3 ++
        ("<script>alert(1)</script>" ++ (tpl4 ++ ("المحترم" ++ (tpl5 ++
          ("السلام عليكم ورحمة الله وبركاته.." ++ (tpl6 ++ (tpl7 ++ (tpl8 ++
            ("وشكراً.." ++ (tpl9 ++ (tpl10 ++ tpl11))))))))))))))))) := by
  have h1 : logoSrc fdScript = "" := rfl
  have h2 : copyToItems fdScript = "" := rfl
  have h3 : (("" : String) != "") = false := rfl
  have hsd : fdScript.showDate = false := rfl
  have e1 : jsOr fdScript.to "" = "<script>alert(1)</script>" := rfl
  have e2 : jsOr fdScript.to_the "المحترم" = "المحترم" := rfl
  have e3 : jsOr fdScript.greetings "السلام عليكم ورحمة الله وبركاته.." =
      "السلام عليكم ورحمة الله وبركاته.." := rfl
  have e4 : jsOr fdScript.subject_name "" = "" := rfl
  have e5 : jsOr fdScript.subject "" = "" := rfl
  have e6 : jsOr fdScript.ending "وشكراً.." = "وشكراً.." := rfl
  have e7 : jsOr fdScript.sign "" = "" := rfl
  simp only [generateDocumentHtml, tpl0, h1, h2, h3, hsd, e1, e2, e3, e4, e5, e6, e7,
    Bool.false_eq_true, if_false, strAppend_assoc, strEmpty_append, strAppend_empty]

set_option maxRecDepth 20000 in
/-- The document for the markup-carrying recipient contains no
ampersand character at all (checked chunk by chunk), hence no escaped
entity. -/
theorem html_fdScript_no_ampersand :
    (generateDocumentHtml d0 fdScript).data.all (fun c => c != Char.ofNat 38) = true := by
  rw [html_fdScript_chain]
  simp only [strData_append, List.all_append]
  decide

/-- Counterexample to claim C1 as stated: a recipient value carrying
markup characters appears verbatim in the output of
`generateDocumentHtml`, and no escaped form (no ampersand at all, hence
neither `&lt;` nor `&amp;`) appears anywhere in the output. -/
theorem c1_counterexample :
    strContains (generateDocumentHtml d0 fdScript) "<script>alert(1)</script>" = true
    ∧ strContains (generateDocumentHtml d0 fdScript) "&lt;" = false
    ∧ strContains (generateDocumentHtml d0 fdScript) "&amp;" = false := by
  refine ⟨?_, ?_, ?_⟩
  · apply strContains_of_decomp _
      (tpl0a ++ (tpl0b ++ (tpl0c ++ (tpl0d ++ (tpl1 ++ (tpl2 ++ tpl3))))))
      "<script>alert(1)</script>"
      (tpl4 ++ ("المحترم" ++ (tpl5 ++ ("السلام عليكم ورحمة الله وبركاته.." ++ (tpl6 ++
        (tpl7 ++ (tpl8 ++ ("وشكراً.." ++ (tpl9 ++ (tpl10 ++ tpl11))))))))))
    rw [html_fdScript_chain]
    simp only [strAppend_assoc]
  · exact containsCL_head_notMem (Char.ofNat 38) "lt;".data _ html_fdScript_no_ampersand
  · exact containsCL_head_notMem (Char.ofNat 38) "amp;".data _ html_fdScript_no_ampersand

/-- A joined list of `<li>` items is never the empty string when the
item list is non-empty. -/
theorem joinAll_li_ne_empty (l : List String) (hl : l ≠ []) :
    joinAll (l.map (fun e => "<li>" ++ e ++ "</li>")) ≠ "" := by
  cases l with
  | nil => exact absurd rfl hl
  | cons a t =>
    intro he
    have hd := congrArg String.data he
    simp only [List.map_cons, joinAll, strData_append] at hd
    have hlen := congrArg List.length hd
    simp only [List.length_append, List.length_cons, List.length_nil] at hlen
    omega

/-- The copy-to items string is the joined list of wrapped entries for a
present, non-empty copy-to text. -/
theorem copyToItems_eq_entries (formData : FormData) (s : String)
    (h : formData.copy_to = some s) (hne : s ≠ "") :
    copyToItems formData =
      joinAll ((ccEntries s).map (fun e => "<li>" ++ e ++ "</li>")) := by
  unfold copyToItems ccEntries
  rw [h]
  have hjs : jsTruthy (some s) = true := by
    simp only [jsTruthy, bne_iff_ne, ne_eq]
    exact hne
  rw [if_pos hjs]
  simp only [Option.getD_some, List.map_map]
  rfl

/-- Claim C4: the produced document carries the copy-to section exactly
when the copy-to text has a non-blank line; the section then contains
one `<li>` entry per non-blank line, carrying the line's trimmed text;
an absent or empty copy-to text (or one with only blank lines) produces
no section at all. -/
theorem c4_copy_to_entries (today : JsDate) (formData : FormData) :
    generateDocumentHtml today formData =
      c4pre today formData ++ (ccSection formData ++ tpl11)
    ∧ (formData.copy_to = none → ccSection formData = "")
    ∧ (∀ s, formData.copy_to = some s → s = "" → ccSection formData = "")
    ∧ (∀ s, formData.copy_to = some s → s ≠ "" →
        (ccEntries s = [] → ccSection formData = "")
        ∧ (ccEntries s ≠ [] →
            ccSection formData =
              cc0 ++ (joinAll ((ccEntries s).map (fun e => "<li>" ++ e ++ "</li>")) ++ cc1))) := by
  refine ⟨?_, ?_, ?_, ?_⟩
  · unfold generateDocumentHtml c4pre c5pre dateRowsBlock ccSection
    simp only [strAppend_assoc]
  · intro h
    have hitems : copyToItems formData = "" := by
      unfold copyToItems
      rw [h]
      rfl
    unfold ccSection
    rw [hitems]
    rfl
  · intro s h hs
    have hitems : copyToItems formData = "" := by
      unfold copyToItems
      rw [h, hs]
      rfl
    unfold ccSection
    rw [hitems]
    rfl
  · intro s h hne
    have hitems := copyToItems_eq_entries formData s h hne
    constructor
    · intro hempty
      have : copyToItems formData = "" := by
        rw [hitems, hempty]
        rfl
      unfold ccSection
      rw [this]
      rfl
    · intro hnonempty
      have hni : copyToItems formData ≠ "" := by
        rw [hitems]
        exact joinAll_li_ne_empty (ccEntries s) hnonempty
      unfold ccSection
      rw [if_pos (by simp only [bne_iff_ne, ne_eq]; exact hni)]
      rw [hitems, strAppend_assoc]

/-- Witness for C4 at a concrete copy-to text with two non-blank lines
and a blank one. -/
theorem c4_witness :
    ccEntries "أحمد\n  \nعلي " = ["أحمد", "علي"]
    ∧ ccSection fdCc =
        cc0 ++ (joinAll ((ccEntries "أحمد\n  \nعلي ").map
          (fun e => "<li>" ++ e ++ "</li>")) ++ cc1) :=
  ⟨by decide,
   ((c4_copy_to_entries d0 fdCc).2.2.2 "أحمد\n  \nعلي " rfl (by decide)).2 (by decide)⟩


end AutoWriter
